import Mathlib

/-!
Verification of the shape-factory module of vtkplotter (src/vtkplotter/shapes.py)
against its natural-language specification.

The Python module is shallowly embedded: every factory becomes a Lean function
over exact rationals (reals where the source computes norms or trigonometry),
Python exceptions become an explicit error type threaded through Except, the
process-wide registry settings.collectable_actors becomes an explicit list of
actor identifiers passed in and returned, and the external vtk mesh filters and
the Actor wrapper (out of scope per the specification, and not part of this
module) are recorded as constructor data on a small actor record.
-/

namespace VtkShapes

/-- Python exception kinds reachable in the modelled code paths. A value of
this type models an exception propagating out of a factory call. -/
inductive PyErr where
  /-- the bare RuntimeError raised on cardinality mismatches -/
  | runtimeError
  /-- TypeError, e.g. len() of an int, or vtk called on a string tuple -/
  | typeError
  /-- IndexError, e.g. indexing an empty list -/
  | indexError
  /-- AttributeError, e.g. setting an attribute on None -/
  | attributeError
  /-- UnboundLocalError, reading a local variable never assigned -/
  | unboundLocalError
  /-- ValueError, e.g. unpacking a tuple of the wrong size -/
  | valueError
  /-- a division reached with a zero divisor (a fault numpy would surface as
  an invalid-value result; the embedding treats reaching it as the fault the
  specification forbids) -/
  | zeroDivision
deriving Repr, DecidableEq

/-- One entry of a caller-supplied color sequence: an RGB triple, an RGBA
quadruple, or a color name string (resolved by the external colors module). -/
inductive ColorEntry where
  | rgb (r g b : ℚ)
  | rgba (r g b a : ℚ)
  | cname (s : String)
deriving Repr, DecidableEq

/-- utils.isSequence on a color entry: numeric tuples are sequences, strings
are not (utils.isSequence returns False for anything with a strip method). -/
def ColorEntry.isSeq : ColorEntry → Bool
  | .cname _ => false
  | _ => true

/-- Python len() of a color entry: 3 for an RGB triple, 4 for an RGBA
quadruple, the string length for a color name. -/
def ColorEntry.pyLen : ColorEntry → ℕ
  | .rgb _ _ _ => 3
  | .rgba _ _ _ _ => 4
  | .cname s => s.length

/-- The c argument of Points/Spheres: a color name, a color number, or a
sequence of color entries. -/
inductive PyColor where
  | name (s : String)
  | num (k : ℤ)
  | colorList (cs : List ColorEntry)
deriving Repr, DecidableEq

/-- utils.isSequence on the c argument. -/
def PyColor.isSeq : PyColor → Bool
  | .colorList _ => true
  | _ => false

/-- Python len() of the c argument; len(int) raises TypeError. -/
def PyColor.pyLen : PyColor → Except PyErr ℕ
  | .name s => .ok s.length
  | .num _ => .error .typeError
  | .colorList cs => .ok cs.length

/-- The alpha argument of Points: a scalar opacity or a per-point list. -/
inductive PyAlpha where
  | scalar (a : ℚ)
  | listA (l : List ℚ)
deriving Repr, DecidableEq

/-- utils.isSequence on the alpha argument. -/
def PyAlpha.isSeq : PyAlpha → Bool
  | .listA _ => true
  | _ => false

/-- An RGBA tuple as stored in the vtkUnsignedCharArray of point colors. -/
abbrev RGBA : Type := ℚ × ℚ × ℚ × ℚ

/-- The renderable wrapper produced by Points: the mesh points handed to the
vtkPolyData, the optional per-point RGBA scalar array, the color and alpha
handed to the Actor constructor, and the position offset. -/
structure PActor where
  name : String := ""
  points : List (List ℚ) := []
  pointColors : Option (List RGBA) := none
  uniformC : Option PyColor := none
  uniformA : Option ℚ := none
  position : Option (List ℚ) := none
  pointSize : ℚ := 0
deriving Repr, DecidableEq

/-- getColor of the external colors module applied to one entry of a color
sequence (colors.py is out of scope per the specification): numeric triples
and quadruples come back as their RGB components, color names go through the
caller-supplied name table. -/
def getColorE (lookup : String → ℚ × ℚ × ℚ) : ColorEntry → ℚ × ℚ × ℚ
  | .rgb r g b => (r, g, b)
  | .rgba r g b _ => (r, g, b)
  | .cname s => lookup s

/-- Embedding of _PointsColors (shapes.py lines 188-230). It raises the bare
RuntimeError on a point/color or point/alpha cardinality mismatch and builds
the per-point RGBA scalar array otherwise. The first mismatch check applies
Python len() to the c argument, which itself raises TypeError when c is a
number; with a 4-tuple first color entry every entry is tuple-unpacked into
four components, which raises on entries of any other shape. -/
def PointsColors (lookup : String → ℚ × ℚ × ℚ) (plist : List (List ℚ))
    (r : ℚ) (cols : PyColor) (alpha : PyAlpha) : Except PyErr PActor := do
  let n := plist.length
  let ncols ← cols.pyLen
  if n ≠ ncols then
    .error .runtimeError
  else do
    let aa : List ℚ × ℚ ←
      match alpha with
      | .listA l =>
          if l.length ≠ n then .error PyErr.runtimeError else .ok (l, (1 : ℚ))
      | .scalar a => .ok (List.replicate n a, a)
    let uc : List RGBA × Option PyColor ←
      match cols with
      | .colorList cs => do
          let e0 ←
            match cs with
            | [] => Except.error PyErr.indexError
            | e :: _ => Except.ok e
          if e0.pyLen = 4 then do
            let l ← cs.mapM (fun e =>
              match e with
              | .rgba rc gc bc ac => Except.ok ((rc, gc, bc, ac) : RGBA)
              | .rgb _ _ _ => Except.error PyErr.valueError
              | .cname s =>
                  if s.length = 4 then Except.error PyErr.typeError
                  else Except.error PyErr.valueError)
            Except.ok (l, (none : Option PyColor))
          else
            Except.ok ((cs.zip aa.1).map (fun p =>
              let rgb := getColorE lookup p.1
              (rgb.1 * 255, rgb.2.1 * 255, rgb.2.2 * 255, p.2 * 255)),
              (none : Option PyColor))
      | _ => Except.ok (([] : List RGBA), some cols)
    .ok { name := ""
          points := plist
          pointColors := some uc.1
          uniformC := uc.2
          uniformA := some aa.2
          position := none
          pointSize := r }

/-- The per-point color/alpha detection of Points (line 152): c is a sequence
and is longer than 3 entries or has a sequence first entry of length 4, or
alpha is a sequence. Indexing an empty color sequence raises IndexError. -/
def perPointGuard (c : PyColor) (alpha : PyAlpha) : Except PyErr Bool :=
  match c with
  | .colorList cs =>
      if cs.length > 3 then .ok true
      else
        match cs with
        | [] => .error .indexError
        | e :: _ =>
            if e.isSeq = true ∧ e.pyLen = 4 then .ok true else .ok alpha.isSeq
  | _ => .ok alpha.isSeq

/-- np.stack((a, b, c), axis=1): zip three coordinate arrays into points. The
arrays have equal length in every reachable call (numpy raises otherwise). -/
def stack3 : List ℚ → List ℚ → List ℚ → List (List ℚ)
  | x :: xs, y :: ys, z :: zs => [x, y, z] :: stack3 xs ys zs
  | _, _, _ => []

/-- The input-layout normalization of Points (lines 141-149): a length-3 list
of coordinate arrays longer than 3 entries is transposed from the
[all_x, all_y, all_z] layout, a length-2 list likewise with a zero z array,
and length-2 points get a zero z coordinate appended. np.stack and np.c_
raise ValueError on ragged inputs. -/
def normalizePlist (plist : List (List ℚ)) : Except PyErr (List (List ℚ)) := do
  let plist ←
    if plist.length = 3 ∧ (plist.headD []).length > 3 then
      match plist with
      | [xs, ys, zs] =>
          if ys.length = xs.length ∧ zs.length = xs.length then
            Except.ok (stack3 xs ys zs)
          else Except.error PyErr.valueError
      | _ => Except.ok plist
    else if plist.length = 2 ∧ (plist.headD []).length > 3 then
      match plist with
      | [xs, ys] =>
          if ys.length = xs.length then
            Except.ok (stack3 xs ys (List.replicate xs.length 0))
          else Except.error PyErr.valueError
      | _ => Except.ok plist
    else Except.ok plist
  if (plist.headD []).length = 2 then
    if plist.all (fun p => p.length = 2) then
      Except.ok (plist.map (fun p => p ++ [0]))
    else Except.error PyErr.valueError
  else Except.ok plist

/-- Embedding of Points (lines 118-186). The registry
settings.collectable_actors is passed explicitly as a list of actor ids and
the id of the actor under construction is the parameter aid; the returned
pair is the new registry and the result, where none models the Python None
returned for an empty input list. -/
def Points (lookup : String → ℚ × ℚ × ℚ) (aid : ℕ) (plist : List (List ℚ))
    (r : ℚ) (c : PyColor) (alpha : PyAlpha) (reg : List ℕ) :
    Except PyErr (List ℕ × Option PActor) :=
  if plist.length = 0 then .ok (reg, none)
  else do
    let plist ← normalizePlist plist
    let g ← perPointGuard c alpha
    if g then do
      let a ← PointsColors lookup plist r c alpha
      .ok (reg ++ [aid], some { a with name := "Points" })
    else
      let n := plist.length
      let a : PActor :=
        { name := "Points"
          points := if n = 1 then [[0, 0, 0]] else plist
          pointColors := none
          uniformC := some c
          uniformA := some (match alpha with | .scalar q => q | .listA _ => 0)
          position := if n = 1 then some (plist.headD []) else none
          pointSize := r }
      .ok (reg ++ [aid], some a)

/-- The mesh source configuration of an Arc actor: either two endpoints
around a center, or a polar vector with a normal and an angle (the external
vtkArcSource consumes exactly this data). -/
inductive ArcSpec where
  | byPoints (center point1 point2 : List ℚ)
  | byNormalAngle (point1 normal : List ℚ) (angle : ℚ)
deriving Repr, DecidableEq

/-- The renderable wrapper produced by Arc. -/
structure AActor where
  name : String
  src : ArcSpec
  invert : Bool
  res : ℕ
deriving Repr, DecidableEq

/-- Embedding of Arc (lines 1050-1090): with point2 given the source uses the
two points and the center; otherwise, with both a normal and an angle, the
polar-vector form; otherwise the error is reported and None is returned
without touching the registry. -/
def Arc (aid : ℕ) (center point1 : List ℚ) (point2 normal : Option (List ℚ))
    (angle : Option ℚ) (invert : Bool) (res : ℕ) (reg : List ℕ) :
    List ℕ × Option AActor :=
  match point2 with
  | some p2 =>
      (reg ++ [aid], some ⟨"Arc", .byPoints center point1 p2, invert, res⟩)
  | none =>
      match normal, angle with
      | some nv, some ang =>
          (reg ++ [aid], some ⟨"Arc", .byNormalAngle point1 nv ang, invert, res⟩)
      | _, _ => (reg, none)

/-- A 3d vector over the reals, for the factories that compute norms or
trigonometry (numpy float arithmetic is idealized as exact real numbers). -/
@[ext]
structure V3 where
  x : ℝ
  y : ℝ
  z : ℝ

/-- Componentwise difference of 3d vectors. -/
def V3.sub (a b : V3) : V3 := ⟨a.x - b.x, a.y - b.y, a.z - b.z⟩

/-- Scalar multiple of a 3d vector. -/
def V3.smul (c : ℝ) (v : V3) : V3 := ⟨c * v.x, c * v.y, c * v.z⟩

instance : SMul ℝ V3 := ⟨V3.smul⟩

/-- np.linalg.norm of a 3d vector. -/
noncomputable def V3.norm (v : V3) : ℝ := Real.sqrt (v.x ^ 2 + v.y ^ 2 + v.z ^ 2)

/-- numpy arctan2(y, x), embedded as the complex argument of x + i y: both
have range (-pi, pi] and both send (0, 0) to 0. -/
noncomputable def atan2R (y x : ℝ) : ℝ := Complex.arg ⟨x, y⟩

/-- The rotation vtkTransform.RotateY(a) applies to a vector (a in radians
here; the source passes degrees to vtk). -/
noncomputable def rotYv (a : ℝ) (v : V3) : V3 :=
  ⟨Real.cos a * v.x + Real.sin a * v.z, v.y,
   -Real.sin a * v.x + Real.cos a * v.z⟩

/-- The rotation vtkTransform.RotateZ(a) applies to a vector. -/
noncomputable def rotZv (a : ℝ) (v : V3) : V3 :=
  ⟨Real.cos a * v.x - Real.sin a * v.y,
   Real.sin a * v.x + Real.cos a * v.y, v.z⟩

/-- An anisotropic vtkTransform.Scale(a, b, c) applied to a vector. -/
def scaleV (a b c : ℝ) (v : V3) : V3 := ⟨a * v.x, b * v.y, c * v.z⟩

/-- An unguarded division of a vector by a scalar, erroring exactly on a zero
divisor: reaching the error constructor models a division fault. -/
noncomputable def divV3 (v : V3) (len : ℝ) : Except PyErr V3 :=
  if len = 0 then .error .zeroDivision else .ok (len⁻¹ • v)

/-- The axis computation of Arrow (lines 861-864): the division of the
difference vector by its norm happens only under the truthiness guard
"if length:", so a zero-length input keeps the raw difference vector. -/
noncomputable def arrowAxis (startPoint endPoint : V3) : Except PyErr V3 :=
  let axis := endPoint.sub startPoint
  let length := axis.norm
  if length = 0 then .ok axis else divV3 axis length

/-- The vtk transform of Arrow (lines 865-884) applied to a point of the
canonical arrow template (which points along +x): theta = arccos(axis z),
phi = arctan2(axis y, axis x), then RotateZ(phi), RotateY(theta),
RotateY(-90) and a scale are concatenated; vtk premultiplies, so the scale
applies to the point first and RotateZ last. With the section size s absent
the scale is isotropic by the length, otherwise (length, 800 s, 800 s). -/
noncomputable def arrowTransform (startPoint endPoint : V3) (s : Option ℝ)
    (v : V3) : Except PyErr V3 := do
  let axis ← arrowAxis startPoint endPoint
  let theta := Real.arccos axis.z
  let phi := atan2R axis.y axis.x
  let length := (endPoint.sub startPoint).norm
  let sv :=
    match s with
    | none => scaleV length length length v
    | some sz => scaleV length (800 * sz) (800 * sz) v
  .ok (rotZv phi (rotYv theta (rotYv (-(Real.pi / 2)) sv)))

/-- The renderable wrapper produced by Arrow: the transformed template is the
mesh, positioned at the start point. -/
structure ArrowActor where
  name : String
  base : V3
  top : V3
  position : V3
  sectionSize : Option ℝ

/-- Embedding of Arrow (lines 847-897): total on every input pair, since the
division by the length is guarded; the actor is registered once. -/
noncomputable def Arrow (aid : ℕ) (startPoint endPoint : V3) (s : Option ℝ)
    (reg : List ℕ) : Except PyErr (List ℕ × ArrowActor) := do
  let _ ← arrowAxis startPoint endPoint
  .ok (reg ++ [aid],
    { name := "Arrow", base := startPoint, top := endPoint,
      position := startPoint, sectionSize := s })

/-- np.linspace(a, b, num): num evenly spaced samples from a to b. -/
noncomputable def linspaceR (a b : ℝ) (num : ℕ) : List ℝ :=
  (List.range num).map (fun i => a + (b - a) * i / ((num : ℝ) - 1))

/-- The renderable wrapper produced by Spring: the helix polyline (before the
orientation rotation), the tube thickness, the rotation angles and the
base/top endpoints recorded on the actor. -/
structure SpringActor where
  name : String
  pts : List V3
  thickness : ℝ
  theta : ℝ
  phi : ℝ
  base : V3
  top : V3

/-- Embedding of Spring (lines 1425-1487): a zero distance between the
endpoints returns None before any construction; otherwise the helix polyline
is computed and handed to the external tube filter, and the actor is
registered once. The "if not r" truthiness defaults also fire on zero. -/
noncomputable def Spring (aid : ℕ) (startPoint endPoint : V3) (coils : ℕ)
    (r : ℝ) (r2 thickness : Option ℝ) (reg : List ℕ) :
    List ℕ × Option SpringActor :=
  let diff := endPoint.sub startPoint
  let length := diff.norm
  if length = 0 then (reg, none)
  else
    let r := if r = 0 then length / 20 else r
    let trange := linspaceR 0 length (50 * coils)
    let om := 6.283 * ((coils : ℝ) - 0.5) / length
    let r2 := match r2 with | none => r | some v => if v = 0 then r else v
    let pts := trange.map (fun t =>
      let f := (length - t) / length
      let rd := r * f + r2 * (1 - f)
      (⟨rd * Real.cos (om * t), rd * Real.sin (om * t), t⟩ : V3))
    let pts := [(⟨0, 0, 0⟩ : V3)] ++ pts ++ [(⟨0, 0, length⟩ : V3)]
    let dif2 := length⁻¹ • diff
    let theta := Real.arccos dif2.z
    let phi := atan2R dif2.y dif2.x
    let thickness := match thickness with
      | none => r / 10
      | some v => if v = 0 then r / 10 else v
    (reg ++ [aid],
     some { name := "Spring", pts := pts, thickness := thickness,
            theta := theta, phi := phi, base := startPoint, top := endPoint })

/-- Modelled from the spec: the spline evaluation KSpline delegates to the
external vtkKochanekSpline filter (not part of this module). This is the
outgoing (source-side) tangent at control point i of a closed
Kochanek-Bartels spline, per the definition the KSpline docstring cites,
with wraparound indexing; tn, cn, bs are tension, continuity and bias. -/
def kbTanOut (pts : List ℚ) (tn cn bs : ℚ) (i : ℕ) : ℚ :=
  let n := pts.length
  let p := pts.getD i 0
  let pm := pts.getD ((i + n - 1) % n) 0
  let pp := pts.getD ((i + 1) % n) 0
  (1 - tn) * (1 + bs) * (1 + cn) / 2 * (p - pm)
    + (1 - tn) * (1 - bs) * (1 - cn) / 2 * (pp - p)

/-- Modelled from the spec: the incoming (destination-side) Kochanek-Bartels
tangent at control point i, wraparound indexing as in kbTanOut. -/
def kbTanIn (pts : List ℚ) (tn cn bs : ℚ) (i : ℕ) : ℚ :=
  let n := pts.length
  let p := pts.getD i 0
  let pm := pts.getD ((i + n - 1) % n) 0
  let pp := pts.getD ((i + 1) % n) 0
  (1 - tn) * (1 + bs) * (1 - cn) / 2 * (p - pm)
    + (1 - tn) * (1 - bs) * (1 + cn) / 2 * (pp - p)

/-- The cubic Hermite basis combination on one spline interval. -/
def hermite (p0 m0 p1 m1 u : ℚ) : ℚ :=
  (2 * u ^ 3 - 3 * u ^ 2 + 1) * p0 + (u ^ 3 - 2 * u ^ 2 + u) * m0
    + (-2 * u ^ 3 + 3 * u ^ 2) * p1 + (u ^ 3 - u ^ 2) * m1

/-- Modelled from the spec: Evaluate(t) of a closed 1d Kochanek-Bartels
spline whose control values sit at parameters 0..n-1 and which runs back to
the first value over the final interval [n-1, n]; t is clamped to [0, n] and
the interval index to the final interval, as the external filter clamps. -/
def kbEvalClosed (pts : List ℚ) (tn cn bs : ℚ) (t : ℚ) : ℚ :=
  let n := pts.length
  let t := max 0 (min (n : ℚ) t)
  let j := min (Int.toNat (Int.floor t)) (n - 1)
  let u := t - (j : ℚ)
  hermite (pts.getD j 0) (kbTanOut pts tn cn bs j)
    (pts.getD ((j + 1) % n) 0) (kbTanIn pts tn cn bs ((j + 1) % n)) u

/-- The per-axis spline evaluation of KSpline (lines 655-677) with
closed=True: the x, y and z coordinate lists feed three independent 1d
splines. The z spline only receives values from points that have a third
coordinate, so the model is faithful for inputs of 3d points. -/
def ksplineEvalPt (points : List (List ℚ)) (tn cn bs : ℚ) (t : ℚ) :
    ℚ × ℚ × ℚ :=
  (kbEvalClosed (points.map (fun p => p.getD 0 0)) tn cn bs t,
   kbEvalClosed (points.map (fun p => p.getD 1 0)) tn cn bs t,
   kbEvalClosed (points.map (fun p => p.getD 2 0)) tn cn bs t)

/-- Componentwise sum of 3d vectors. -/
def V3.add (a b : V3) : V3 := ⟨a.x + b.x, a.y + b.y, a.z + b.z⟩

instance : Add V3 := ⟨V3.add⟩

/-- The dash emission of DashedLine (lines 510-538) for one straight segment
from p0 to p1: the segment splits into n1 = int(norm(v)/spacing) equal
sub-intervals, the loop over i in 1..n1+1 emits the odd-indexed ones (the
skip condition (i-1)/n1 > 1 never fires in that range), and an emitted dash
reaching past the end is clamped to end at p1. With n1 = 0 the loop body is
skipped and no dash is emitted. -/
noncomputable def dashedSegments (p0 p1 : V3) (spacing : ℝ) : List (V3 × V3) :=
  let v := p1.sub p0
  let n1 := Int.toNat (Int.floor (V3.norm v / spacing))
  if n1 = 0 then []
  else
    (List.range' 1 (n1 + 1)).filterMap (fun (i : ℕ) =>
      if ((i : ℚ) - 1) / (n1 : ℚ) > 1 then none
      else if i % 2 = 1 then
        some (p0 + ((((i : ℝ) - 1) / (n1 : ℝ)) • v),
          if ((i : ℚ) / (n1 : ℚ)) > 1 then p1
          else p0 + (((i : ℝ) / (n1 : ℝ)) • v))
      else none)

/-- The glyph source selected by the Tensors source dispatch. -/
inductive TSource where
  | sphereSrc
  | cylinderSrc
  | cubeSrc
  | actorSrc
deriving Repr, DecidableEq

/-- Whether the first character list is an initial run of the second. -/
def leadsWith : List Char → List Char → Bool
  | [], _ => true
  | _ :: _, [] => false
  | a :: as, b :: bs => a == b && leadsWith as bs

/-- The Python substring test "needle in hay". -/
def hasSub (needle : List Char) : List Char → Bool
  | [] => leadsWith needle []
  | c :: t => leadsWith needle (c :: t) || hasSub needle t

/-- The source argument of Tensors: an Actor instance or a preset name. -/
inductive TSourceArg where
  | fromActor
  | nameS (s : String)
deriving Repr, DecidableEq

/-- The source dispatch of Tensors (lines 371-384): an Actor source is
normalized and used directly; a string containing "ellip" or "cyl", or equal
to "cube", selects the corresponding vtk source; any other string leaves the
local variable src unassigned, so the src.Update() call at line 384 raises
UnboundLocalError. -/
def tensorsSource : TSourceArg → Except PyErr TSource
  | .fromActor => .ok .actorSrc
  | .nameS s =>
      if hasSub ("ellip".toList) s.toList then .ok .sphereSrc
      else if hasSub ("cyl".toList) s.toList then .ok .cylinderSrc
      else if s = "cube" then .ok .cubeSrc
      else .error .unboundLocalError

/-- The renderable wrapper produced by Tensors. -/
structure TActor where
  name : String
  src : TSource
  colorGlyphs : Bool
deriving Repr, DecidableEq

/-- Embedding of Tensors (lines 334-420): after the source dispatch and the
external tensor-glyph filter, the actor is returned at line 420 without ever
being appended to settings.collectable_actors, so the registry comes back
unchanged. -/
def Tensors (source : TSourceArg) (c : Option ColorEntry) (reg : List ℕ) :
    Except PyErr (List ℕ × TActor) := do
  let src ← tensorsSource source
  .ok (reg, { name := "Tensors", src := src, colorGlyphs := c.isNone })

/-- The construction selected by the Marker symbol dispatch: a regular
polygon (possibly rotated about z, in degrees, and scaled in x), a star, or
a text glyph. -/
inductive MarkerShape where
  | polygonM (nsides : ℕ) (r : ℚ) (rotZ : ℤ) (scaleX : ℚ)
  | starM (r1 r2 : ℚ) (line : Bool)
  | textM (s : String) (size : ℚ) (rotZ : ℤ)
deriving Repr, DecidableEq

/-- The symbol argument of Marker: a string symbol or an integer index. -/
inductive MSymbol where
  | strS (s : String)
  | intS (k : ℤ)
deriving Repr, DecidableEq

/-- Embedding of the Marker symbol dispatch (lines 62-104). A string outside
the recognized vocabulary falls back to a Text construction of the string
itself. An integer symbol indexes the symbol table with the size parameter s
(line 69, symbs[s]), a float-typed value, and indexing a list with a float
raises TypeError. -/
def Marker (symbol : MSymbol) (s : ℚ) (filled : Bool) :
    Except PyErr MarkerShape :=
  match symbol with
  | .intS _ => .error .typeError
  | .strS sym =>
      if sym = "." then .ok (.polygonM 24 (s * (3 / 4)) 0 1)
      else if sym = "p" then .ok (.polygonM 5 s 0 1)
      else if sym = "*" then .ok (.starM (s * (7 / 10)) s (!filled))
      else if sym = "h" then .ok (.polygonM 6 s 0 1)
      else if sym = "D" then .ok (.polygonM 4 s 0 1)
      else if sym = "d" then .ok (.polygonM 4 (s * (11 / 10)) 0 (1 / 2))
      else if sym = "o" then .ok (.polygonM 24 (s * (3 / 4)) 0 1)
      else if sym = "v" then .ok (.polygonM 3 s 180 1)
      else if sym = "^" then .ok (.polygonM 3 s 0 1)
      else if sym = ">" then .ok (.polygonM 3 s (-90) 1)
      else if sym = "<" then .ok (.polygonM 3 s 90 1)
      else if sym = "s" then .ok (.polygonM 4 s 45 1)
      else if sym = "x" then .ok (.textM ("+") (s * (13 / 5)) 45)
      else if sym = "a" then .ok (.textM ("*") (s * 3) 0)
      else .ok (.textM sym (s * 2) 0)

/-- The shape-name vocabulary of ParametricShape (lines 1975-1978). -/
def psShapes : List String :=
  ["Boy", "ConicSpiral", "CrossCap", "Dini", "Enneper",
   "Figure8Klein", "Klein", "Mobius", "RandomHills", "Roman",
   "SuperEllipsoid", "BohemianDome", "Bour", "CatalanMinimal",
   "Henneberg", "Kuen", "PluckerConoid", "Pseudosphere"]

/-- The renderable wrapper produced by ParametricShape. -/
structure PSActor where
  name : String
deriving Repr, DecidableEq

/-- The name argument of ParametricShape: a string, or an integer that is
reduced modulo the vocabulary size and mapped to a name (lines 1980-1982). -/
inductive PSName where
  | strN (s : String)
  | intN (k : ℤ)
deriving Repr, DecidableEq

/-- Embedding of ParametricShape (lines 1953-2035): a recognized name builds
the parametric source, the actor is registered once and named; an
unrecognized string is reported and None returned without registering. -/
def ParametricShape (aid : ℕ) (nameArg : PSName) (reg : List ℕ) :
    List ℕ × Option PSActor :=
  let nm := match nameArg with
    | .intN k => psShapes.getD (Int.toNat (k % 18)) ""
    | .strN s => s
  if nm ∈ psShapes then (reg ++ [aid], some { name := nm })
  else (reg, none)

/-- The c argument of Spheres. utils.isSequence is False for a color name
(strings have a .strip attribute) and for a single color number, but True
for a bare RGB or RGBA tuple and for a list of per-sphere color entries: a
tuple such as (1,0,0) is itself a sequence whose elements are its numeric
components. -/
inductive SphColor where
  | name (s : String)
  | num (k : ℤ)
  | rgbTup (r g b : ℚ)
  | rgbaTup (r g b a : ℚ)
  | many (cs : List ColorEntry)
deriving Repr, DecidableEq

/-- utils.isSequence on the c argument of Spheres (line 1119). -/
def SphColor.isSeqC : SphColor → Bool
  | .name _ => false
  | .num _ => false
  | .rgbTup _ _ _ => true
  | .rgbaTup _ _ _ _ => true
  | .many _ => true

/-- The Python len of the c argument, read by the guards only when isSeqC
is true: len of a bare RGB tuple is 3, of an RGBA tuple 4, of a list its
length (for a string its length, never consulted there; len of a number
would raise, but a number is not a sequence and never reaches len). -/
def SphColor.seqLen : SphColor → ℕ
  | .name s => s.length
  | .num _ => 0
  | .rgbTup _ _ _ => 3
  | .rgbaTup _ _ _ _ => 4
  | .many cs => cs.length

/-- The r argument of Spheres: one radius, or a per-sphere radius sequence. -/
inductive SphRad where
  | one (q : ℚ)
  | many (rs : List ℚ)
deriving Repr, DecidableEq

/-- utils.isSequence on the r argument of Spheres (line 1129): a single
radius number is not a sequence, a radius list is. -/
def SphRad.isSeqR : SphRad → Bool
  | .one _ => false
  | .many _ => true

/-- The Python len of a sequence-typed r argument. -/
def SphRad.seqLen : SphRad → ℕ
  | .one _ => 0
  | .many rs => rs.length

/-- An argument the external colors.getColor is handed inside Spheres: a
color entry (a name or a numeric triple/quadruple), a bare number taken as
an element of a color tuple, or a single integer color index. getColor
lives in colors.py, outside this module, and is abstracted as a caller
supplied function out of this type. -/
inductive ColorArg where
  | fromEntry (e : ColorEntry)
  | fromQ (q : ℚ)
  | fromZ (k : ℤ)

/-- The renderable wrapper produced by Spheres. -/
structure SphActor where
  name : String
  centers : List (List ℚ)
  perColor : Option (List (ℚ × ℚ × ℚ)) := none
  perRad : Option (List ℚ) := none
  uniformR : Option ℚ := none
  uniformC : Option (ℚ × ℚ × ℚ) := none
  alpha : ℚ
deriving Repr, DecidableEq

/-- The actor the Spheres glyph loop assembles (lines 1144-1193): with a
sequence color the loop reads getColor(c[i]) for one entry per center - for
a bare RGB/RGBA tuple those entries are its numeric components - and with a
sequence radius one radius per center; otherwise the single radius is set
on the source and the single color (a name or a color number) is applied
uniformly on the actor property. -/
def spheresActor (getC : ColorArg → ℚ × ℚ × ℚ) (centers : List (List ℚ))
    (r : SphRad) (c : SphColor) (alpha : ℚ) : SphActor :=
  { name := "Spheres"
    centers := centers
    perColor := match c with
      | .many cs => some ((cs.take centers.length).map (fun e =>
          let g := getC (.fromEntry e)
          (g.1 * 255, g.2.1 * 255, g.2.2 * 255)))
      | .rgbTup r1 g1 b1 =>
          some (([r1, g1, b1].take centers.length).map (fun q =>
            let g := getC (.fromQ q)
            (g.1 * 255, g.2.1 * 255, g.2.2 * 255)))
      | .rgbaTup r1 g1 b1 a1 =>
          some (([r1, g1, b1, a1].take centers.length).map (fun q =>
            let g := getC (.fromQ q)
            (g.1 * 255, g.2.1 * 255, g.2.2 * 255)))
      | _ => none
    perRad := match r with
      | .many rs => some (rs.take centers.length)
      | .one _ => none
    uniformR := match r with | .one q => some q | .many _ => none
    uniformC := match c with
      | .name s => some (getC (.fromEntry (.cname s)))
      | .num k => some (getC (.fromZ k))
      | _ => none
    alpha := alpha }

/-- Embedding of Spheres (lines 1110-1194). cisseq and risseq follow
utils.isSequence, so a bare RGB/RGBA color tuple is itself a sequence, of
length 3 or 4. A centers list strictly longer than a sequence color or a
sequence radius raises RuntimeError, as does giving both color and radius
as sequences; a sequence strictly longer than the centers list only prints
a warning and the glyph loop then consumes exactly one entry per center.
The actor is registered exactly once. -/
def Spheres (getC : ColorArg → ℚ × ℚ × ℚ) (aid : ℕ)
    (centers : List (List ℚ)) (r : SphRad) (c : SphColor) (alpha : ℚ)
    (reg : List ℕ) : Except PyErr (List ℕ × SphActor) := do
  let cisseq := c.isSeqC
  let risseq := r.isSeqR
  if cisseq then
    (if centers.length > c.seqLen then Except.error PyErr.runtimeError
     else Except.ok ())
  else Except.ok ()
  if risseq then
    (if centers.length > r.seqLen then Except.error PyErr.runtimeError
     else Except.ok ())
  else Except.ok ()
  if cisseq && risseq then Except.error PyErr.runtimeError
  else Except.ok (reg ++ [aid], spheresActor getC centers r c alpha)

/-- Outcome of the external formula-rendering path of Latex (the codecogs
HTTP fetch or the matplotlib rendering, both outside this module): either an
image file is produced, or an exception escapes into the enclosing try. -/
inductive RenderOutcome where
  | rendered
  | failed
deriving Repr, DecidableEq

/-- The renderable wrapper produced by Latex. -/
structure LatexActor where
  name : String
  formula : String
deriving Repr, DecidableEq

/-- Result of a Latex call: the final registry contents (an entry is none
when the appended vactor is None) and the outcome, which is an exception or
the returned value. -/
structure LatexRes where
  reg : List (Option ℕ)
  outcome : Except PyErr (Option LatexActor)
deriving Repr

/-- Whether a color entry is an RGBA quadruple. -/
def ColorEntry.isRGBA : ColorEntry → Bool
  | .rgba _ _ _ _ => true
  | _ => false

/-- A per-point color sequence both loops of PointsColors handle without
raising: when the first entry has Python length 4 the fast loop tuple-unpacks
every entry into four components, so every entry must be an RGBA quadruple;
any other first entry selects the getColor loop, which is total here. -/
def colsUnpackable (cs : List ColorEntry) : Bool :=
  match cs with
  | [] => true
  | e :: _ => if e.pyLen = 4 then cs.all (fun x => x.isRGBA) else true

/-- The string symbols the Marker dispatch recognizes (lines 71-99). -/
def markerSymbols : List String :=
  [".", "p", "*", "h", "D", "d", "o", "v", "^", ">", "<", "s", "x", "a"]

/-- Embedding of Latex (lines 1853-1950): on a rendering failure the except
branch at line 1942 prints a report and leaves vactor = None; line 1948 then
appends vactor (None) to the registry, and line 1949 sets vactor.name, which
raises AttributeError on None, so the exception escapes to the caller
instead of a None return. -/
def Latex (aid : ℕ) (formula : String) (render : RenderOutcome)
    (reg : List (Option ℕ)) : LatexRes :=
  match render with
  | .rendered =>
      { reg := reg ++ [some aid],
        outcome := .ok (some { name := "Latex", formula := formula }) }
  | .failed =>
      { reg := reg ++ [none], outcome := .error .attributeError }

/-- The mismatch conditions under which Spheres raises: the color argument
is a sequence (a color list, or a bare RGB/RGBA tuple) shorter than the
centers list, or the radius argument is a sequence shorter than the centers
list, or color and radius are both sequences. -/
def spheresBad (centers : List (List ℚ)) (r : SphRad) (c : SphColor) : Prop :=
  (c.isSeqC = true ∧ c.seqLen < centers.length)
  ∨ (r.isSeqR = true ∧ r.seqLen < centers.length)
  ∨ (c.isSeqC = true ∧ r.isSeqR = true)

/-! Theorems. -/

/-- C1, counterexample: a call to Points with 5 points and a per-point color
list of 2 RGB entries does not raise; the guard at line 152 does not treat a
color sequence of at most 3 non-RGBA entries as per-point, so the call falls
into the uniform-color branch and returns an actor. -/
theorem c1_counterexample :
    Points (fun _ => (0, 0, 0)) 0
      [[0, 0, 0], [1, 0, 0], [2, 0, 0], [3, 0, 0], [4, 0, 0]] 5
      (.colorList [.rgb 1 0 0, .rgb 0 1 0]) (.scalar 1) []
      = .ok ([0], some
        { name := "Points"
          points := [[0, 0, 0], [1, 0, 0], [2, 0, 0], [3, 0, 0], [4, 0, 0]]
          pointColors := none
          uniformC := some (.colorList [.rgb 1 0 0, .rgb 0 1 0])
          uniformA := some 1
          position := none
          pointSize := 5 }) := rfl

/-- C2, counterexample: 2 points with a matching-length per-point color list
of 2 RGB entries come back as an actor with no per-point color array at all
(pointColors = none): the color list is passed to the Actor constructor as a
single color value instead. -/
theorem c2_counterexample :
    Points (fun _ => (0, 0, 0)) 0 [[0, 0], [1, 1]] 5
      (.colorList [.rgb 1 0 0, .rgb 0 1 0]) (.scalar 1) []
      = .ok ([0], some
        { name := "Points"
          points := [[0, 0, 0], [1, 1, 0]]
          pointColors := none
          uniformC := some (.colorList [.rgb 1 0 0, .rgb 0 1 0])
          uniformA := some 1
          position := none
          pointSize := 5 }) := rfl

/-- Sequencing after a successful Except step runs the continuation. -/
theorem exceptBind_ok {ε α β : Type} (a : α) (f : α → Except ε β) :
    (Except.ok a >>= f) = f a := rfl

/-- Sequencing after a failed Except step propagates the exception. -/
theorem exceptBind_error {ε α β : Type} (e : ε) (f : α → Except ε β) :
    ((Except.error e : Except ε α) >>= f) = .error e := rfl

/-- A list of 3d points passes the layout normalization of Points unchanged. -/
theorem normalizePlist_id (plist : List (List ℚ))
    (h3 : ∀ p ∈ plist, p.length = 3) : normalizePlist plist = .ok plist := by
  cases plist with
  | nil => rfl
  | cons p ps =>
      have hp : p.length = 3 := h3 p (List.mem_cons_self _ _)
      simp [normalizePlist, hp, exceptBind_ok]

/-- A color sequence of the wrong length makes PointsColors raise the
RuntimeError of line 192. -/
theorem pointsColors_cols_mismatch (lookup : String → ℚ × ℚ × ℚ)
    (plist : List (List ℚ)) (r : ℚ) (cs : List ColorEntry) (alpha : PyAlpha)
    (h : cs.length ≠ plist.length) :
    PointsColors lookup plist r (.colorList cs) alpha = .error .runtimeError := by
  have h2 : ¬plist.length = cs.length := fun hh => h hh.symm
  simp [PointsColors, PyColor.pyLen, exceptBind_ok, h2]

/-- An alpha list of the wrong length makes PointsColors raise: the mismatch
check of line 206 fires unless an earlier check raised already. -/
theorem pointsColors_alpha_mismatch (lookup : String → ℚ × ℚ × ℚ)
    (plist : List (List ℚ)) (r : ℚ) (c : PyColor) (l : List ℚ)
    (h : l.length ≠ plist.length) :
    ∃ e, PointsColors lookup plist r c (.listA l) = .error e := by
  cases c with
  | num k => exact ⟨.typeError, rfl⟩
  | name s =>
      by_cases hn : plist.length = s.length
      · have hl : ¬l.length = s.length := fun hh => h (hh.trans hn.symm)
        exact ⟨.runtimeError,
          by simp [PointsColors, PyColor.pyLen, exceptBind_ok, exceptBind_error, hn, hl]⟩
      · exact ⟨.runtimeError,
          by simp [PointsColors, PyColor.pyLen, exceptBind_ok, exceptBind_error, hn]⟩
  | colorList cs =>
      by_cases hn : plist.length = cs.length
      · have hl : ¬l.length = cs.length := fun hh => h (hh.trans hn.symm)
        exact ⟨.runtimeError,
          by simp [PointsColors, PyColor.pyLen, exceptBind_ok, exceptBind_error, hn, hl]⟩
      · exact ⟨.runtimeError,
          by simp [PointsColors, PyColor.pyLen, exceptBind_ok, exceptBind_error, hn]⟩

/-- With a list alpha the per-point guard of line 152 either accepts or, for
an empty color sequence, raises IndexError at the c[0] access. -/
theorem perPointGuard_listA (c : PyColor) (l : List ℚ) :
    perPointGuard c (.listA l) = .ok true ∨
      perPointGuard c (.listA l) = .error .indexError := by
  cases c with
  | num k => left; rfl
  | name s => left; rfl
  | colorList cs =>
      cases cs with
      | nil => right; rfl
      | cons e es =>
          left
          simp only [perPointGuard]
          split
          · rfl
          · split
            · rfl
            · simp [PyAlpha.isSeq]

/-- C1 (amended): when the code recognizes the color or alpha input as
per-point, mismatched cardinalities do abort the call. Part 1: if the guard
of line 152 accepts the input, a color list whose length differs from the
point count raises RuntimeError. Part 2: a per-point alpha list whose length
differs from the point count always raises some exception. In both parts no
actor is returned. A color sequence of at most 3 entries that are not RGBA
quadruples is not recognized as per-point: the original claim fails on it
(see the counterexample), it is passed on as a single color value instead. -/
theorem c1_mismatch_raises :
    (∀ (lookup : String → ℚ × ℚ × ℚ) (aid : ℕ) (plist : List (List ℚ))
        (r : ℚ) (cs : List ColorEntry) (alpha : PyAlpha) (reg : List ℕ),
        (∀ p ∈ plist, p.length = 3) → plist ≠ [] →
        perPointGuard (.colorList cs) alpha = .ok true →
        cs.length ≠ plist.length →
        Points lookup aid plist r (.colorList cs) alpha reg
          = .error .runtimeError)
  ∧ (∀ (lookup : String → ℚ × ℚ × ℚ) (aid : ℕ) (plist : List (List ℚ))
        (r : ℚ) (c : PyColor) (l : List ℚ) (reg : List ℕ),
        (∀ p ∈ plist, p.length = 3) → plist ≠ [] →
        l.length ≠ plist.length →
        ∃ e, Points lookup aid plist r c (.listA l) reg = .error e) := by
  constructor
  · intro lookup aid plist r cs alpha reg h3 hne hg hlen
    have hnz : ¬plist.length = 0 := by
      simpa [List.length_eq_zero] using hne
    simp only [Points, hnz, if_false]
    rw [normalizePlist_id plist h3]
    simp [exceptBind_ok, exceptBind_error, hg,
      pointsColors_cols_mismatch lookup plist r cs alpha hlen]
  · intro lookup aid plist r c l reg h3 hne hlen
    have hnz : ¬plist.length = 0 := by
      simpa [List.length_eq_zero] using hne
    rcases perPointGuard_listA c l with hg | hg
    · obtain ⟨e, he⟩ := pointsColors_alpha_mismatch lookup plist r c l hlen
      refine ⟨e, ?_⟩
      simp only [Points, hnz, if_false]
      rw [normalizePlist_id plist h3]
      simp [exceptBind_ok, exceptBind_error, hg, he]
    · refine ⟨.indexError, ?_⟩
      simp only [Points, hnz, if_false]
      rw [normalizePlist_id plist h3]
      simp [exceptBind_ok, exceptBind_error, hg]

/-- C1, witness: 3 points with a recognized per-point color list of 5 RGB
entries raise RuntimeError. -/
theorem c1_mismatch_raises_witness :
    Points (fun _ => (0, 0, 0)) 0 [[0, 0, 0], [1, 1, 1], [2, 2, 2]] 5
      (.colorList [.rgb 1 0 0, .rgb 0 1 0, .rgb 0 0 1, .rgb 1 1 0, .rgb 0 1 1])
      (.scalar 1) [] = .error .runtimeError :=
  c1_mismatch_raises.1 (fun _ => (0, 0, 0)) 0 _ 5 _ (.scalar 1) []
    (by decide) (by decide) rfl (by decide)

/-- The unpack loop of the fast RGBA branch succeeds on a list of RGBA
entries and yields one quadruple per entry. -/
theorem mapM_rgba (cs : List ColorEntry) (h : ∀ e ∈ cs, e.isRGBA = true) :
    ∃ l : List RGBA,
      cs.mapM (fun e =>
        match e with
        | .rgba rc gc bc ac => Except.ok ((rc, gc, bc, ac) : RGBA)
        | .rgb _ _ _ => Except.error PyErr.valueError
        | .cname s =>
            if s.length = 4 then Except.error PyErr.typeError
            else Except.error PyErr.valueError)
        = Except.ok l ∧ l.length = cs.length := by
  rw [← List.mapM'_eq_mapM]
  induction cs with
  | nil => exact ⟨[], rfl, rfl⟩
  | cons e es ih =>
      obtain ⟨rc, gc, bc, ac, rfl⟩ : ∃ rc gc bc ac, e = .rgba rc gc bc ac := by
        cases e with
        | rgba rc gc bc ac => exact ⟨rc, gc, bc, ac, rfl⟩
        | rgb r g b => simpa [ColorEntry.isRGBA] using h _ (List.mem_cons_self _ _)
        | cname s => simpa [ColorEntry.isRGBA] using h _ (List.mem_cons_self _ _)
      obtain ⟨l, hl, hlen⟩ := ih (fun x hx => h x (List.mem_cons_of_mem _ hx))
      refine ⟨(rc, gc, bc, ac) :: l, ?_, by simp [hlen]⟩
      simp [List.mapM', hl, exceptBind_ok]

/-- PointsColors succeeds on a well-formed per-point color list of the right
length (with a well-formed alpha) and emits one RGBA tuple per point. -/
theorem pointsColors_ok (lookup : String → ℚ × ℚ × ℚ)
    (plist : List (List ℚ)) (r : ℚ) (cs : List ColorEntry) (alpha : PyAlpha)
    (hlen : cs.length = plist.length) (hcs : cs ≠ [])
    (hun : colsUnpackable cs = true)
    (halpha : ∀ l, alpha = .listA l → l.length = plist.length) :
    ∃ (pcl : List RGBA) (ua : ℚ),
      PointsColors lookup plist r (.colorList cs) alpha
        = .ok { name := "", points := plist, pointColors := some pcl,
                uniformC := none, uniformA := some ua, position := none,
                pointSize := r }
      ∧ pcl.length = plist.length := by
  have hnmis : ¬plist.length ≠ cs.length := by simp [hlen]
  obtain ⟨e, es, rfl⟩ : ∃ e es, cs = e :: es := by
    cases cs with
    | nil => exact absurd rfl hcs
    | cons e es => exact ⟨e, es, rfl⟩
  have hall : e.pyLen = 4 → ∀ x ∈ e :: es, x.isRGBA = true := by
    intro hp4
    simpa [colsUnpackable, hp4, List.all_eq_true] using hun
  have hplen : plist.length = es.length + 1 := by simpa using hlen.symm
  cases alpha with
  | scalar a =>
      by_cases hp4 : e.pyLen = 4
      · obtain ⟨l, hmap, hmaplen⟩ := mapM_rgba (e :: es) (hall hp4)
        refine ⟨l, a, ?_, by rw [hmaplen, hlen]⟩
        simp only [PointsColors, PyColor.pyLen, exceptBind_ok, hmap]
        simp [hnmis, hplen, hp4, exceptBind_ok]
      · refine ⟨((e :: es).zip (List.replicate plist.length a)).map (fun p =>
            let rgb := getColorE lookup p.1
            (rgb.1 * 255, rgb.2.1 * 255, rgb.2.2 * 255, p.2 * 255)), a, ?_, ?_⟩
        · simp only [PointsColors, PyColor.pyLen, exceptBind_ok]
          simp [hnmis, hplen, hp4, exceptBind_ok]
        · rw [List.length_map, List.length_zip, List.length_replicate, hlen,
            min_self]
  | listA l =>
      have hl : l.length = plist.length := halpha l rfl
      have hl2 : ¬l.length ≠ plist.length := by simp [hl]
      have hl3 : l.length = es.length + 1 := hl.trans hplen
      by_cases hp4 : e.pyLen = 4
      · obtain ⟨lc, hmap, hmaplen⟩ := mapM_rgba (e :: es) (hall hp4)
        refine ⟨lc, 1, ?_, by rw [hmaplen, hlen]⟩
        simp only [PointsColors, PyColor.pyLen, exceptBind_ok, hmap]
        simp [hnmis, hplen, hl2, hl3, hp4, exceptBind_ok]
      · refine ⟨((e :: es).zip l).map (fun p =>
            let rgb := getColorE lookup p.1
            (rgb.1 * 255, rgb.2.1 * 255, rgb.2.2 * 255, p.2 * 255)), 1, ?_, ?_⟩
        · simp only [PointsColors, PyColor.pyLen, exceptBind_ok]
          simp [hnmis, hplen, hl2, hl3, hp4, exceptBind_ok]
        · rw [List.length_map, List.length_zip, hl, hlen, min_self]

/-- C2 (amended): for every 3d point list of length N with a per-point color
list of length N that the guard of line 152 recognizes as per-point and
whose entries the color loops handle (a homogeneous list: all RGBA when the
first entry is a 4-tuple), and a scalar alpha or a per-point alpha list of
length N, Points returns a registered actor carrying exactly the N input
points and exactly N RGBA color entries. A matching-length RGB color list of
at most 3 entries is not recognized as per-point and yields a uniformly
colored actor instead (see the counterexample). -/
theorem c2_points_colored :
    ∀ (lookup : String → ℚ × ℚ × ℚ) (aid : ℕ) (plist : List (List ℚ))
      (r : ℚ) (cs : List ColorEntry) (alpha : PyAlpha) (reg : List ℕ),
      (∀ p ∈ plist, p.length = 3) → plist ≠ [] →
      perPointGuard (.colorList cs) alpha = .ok true →
      cs.length = plist.length →
      colsUnpackable cs = true →
      (∀ l, alpha = .listA l → l.length = plist.length) →
      ∃ (a : PActor) (pcl : List RGBA),
        Points lookup aid plist r (.colorList cs) alpha reg
          = .ok (reg ++ [aid], some a)
        ∧ a.points = plist ∧ a.pointColors = some pcl
        ∧ pcl.length = plist.length := by
  intro lookup aid plist r cs alpha reg h3 hne hg hlen hun halpha
  have hnz : ¬plist.length = 0 := by simpa [List.length_eq_zero] using hne
  have hcs : cs ≠ [] := by
    intro h
    subst h
    simp at hlen
    exact hnz hlen.symm
  obtain ⟨pcl, ua, hpc, hpclen⟩ :=
    pointsColors_ok lookup plist r cs alpha hlen hcs hun halpha
  refine ⟨(⟨"Points", plist, some pcl, none, some ua, none, r⟩ : PActor),
    pcl, ?_, rfl, rfl, hpclen⟩
  simp only [Points, hnz, if_false]
  rw [normalizePlist_id plist h3]
  simp [exceptBind_ok, hg, hpc]

/-- C2, witness: 4 points with 4 RGB colors (a recognized per-point list)
produce an actor with the 4 points and 4 RGBA entries. -/
theorem c2_points_colored_witness :
    ∃ (a : PActor) (pcl : List RGBA),
      Points (fun _ => (0, 0, 0)) 2
        [[0, 0, 0], [1, 0, 0], [0, 1, 0], [0, 0, 1]] 5
        (.colorList [.rgb 1 0 0, .rgb 0 1 0, .rgb 0 0 1, .rgb 1 1 1])
        (.scalar 1) [7]
        = .ok ([7] ++ [2], some a)
      ∧ a.points = [[0, 0, 0], [1, 0, 0], [0, 1, 0], [0, 0, 1]]
      ∧ a.pointColors = some pcl ∧ pcl.length = 4 :=
  c2_points_colored (fun _ => (0, 0, 0)) 2 _ 5 _ (.scalar 1) [7]
    (by decide) (by decide) rfl (by decide) (by decide) (by simp)

/-- stack3 of three equal-length arrays has that common length. -/
theorem stack3_length (xs ys zs : List ℚ) (hy : ys.length = xs.length)
    (hz : zs.length = xs.length) : (stack3 xs ys zs).length = xs.length := by
  induction xs generalizing ys zs with
  | nil =>
      cases ys with
      | nil => cases zs <;> simp_all [stack3]
      | cons y ys => simp at hy
  | cons x xs ih =>
      cases ys with
      | nil => simp at hy
      | cons y ys =>
          cases zs with
          | nil => simp at hz
          | cons z zs =>
              have := ih ys zs (by simpa using hy) (by simpa using hz)
              simp [stack3, this]

/-- A successful layout normalization of a nonempty point list is nonempty. -/
theorem normalizePlist_ne_nil (plist q : List (List ℚ)) (hne : plist ≠ [])
    (h : normalizePlist plist = .ok q) : q ≠ [] := by
  have hstep : ∀ mid : List (List ℚ), mid ≠ [] →
      (if (mid.headD []).length = 2 then
        if mid.all (fun p => p.length = 2) then
          Except.ok (mid.map (fun p => p ++ [0]))
        else Except.error PyErr.valueError
       else Except.ok mid) = Except.ok q → q ≠ [] := by
    intro mid hmid hq
    split at hq
    · split at hq
      · obtain rfl : mid.map (fun p => p ++ [0]) = q := by simpa using hq
        simpa using hmid
      · simp at hq
    · obtain rfl : mid = q := by simpa using hq
      exact hmid
  by_cases h3 : plist.length = 3 ∧ (plist.headD []).length > 3
  · obtain ⟨xs, ys, zs, rfl⟩ := List.length_eq_three.mp h3.1
    unfold normalizePlist at h
    rw [if_pos h3] at h
    dsimp only at h
    by_cases heq : ys.length = xs.length ∧ zs.length = xs.length
    · rw [if_pos heq, exceptBind_ok] at h
      refine hstep _ ?_ h
      have hst := stack3_length xs ys zs heq.1 heq.2
      have hx : 3 < xs.length := by simpa using h3.2
      intro hnil
      rw [hnil] at hst
      simp at hst
      omega
    · rw [if_neg heq, exceptBind_error] at h
      simp at h
  · by_cases h2 : plist.length = 2 ∧ (plist.headD []).length > 3
    · obtain ⟨xs, ys, rfl⟩ := List.length_eq_two.mp h2.1
      unfold normalizePlist at h
      rw [if_neg h3, if_pos h2] at h
      dsimp only at h
      by_cases heq : ys.length = xs.length
      · rw [if_pos heq, exceptBind_ok] at h
        refine hstep _ ?_ h
        have hst := stack3_length xs ys (List.replicate xs.length 0) heq
          (by simp)
        have hx : 3 < xs.length := by simpa using h2.2
        intro hnil
        rw [hnil] at hst
        simp at hst
        omega
      · rw [if_neg heq, exceptBind_error] at h
        simp at h
    · unfold normalizePlist at h
      rw [if_neg h3, if_neg h2, exceptBind_ok] at h
      exact hstep _ hne h

/-- PointsColors either raises or returns the full record carrying exactly
the input points. -/
theorem pointsColors_shape (lookup : String → ℚ × ℚ × ℚ)
    (plist : List (List ℚ)) (r : ℚ) (c : PyColor) (alpha : PyAlpha) :
    (∃ e, PointsColors lookup plist r c alpha = .error e)
    ∨ (∃ pcl uniC ua, PointsColors lookup plist r c alpha
        = .ok ⟨"", plist, some pcl, uniC, some ua, none, r⟩) := by
  rcases c with s | k | cs
  · by_cases hmis : plist.length ≠ s.length
    · exact Or.inl ⟨.runtimeError,
        by simp [PointsColors, PyColor.pyLen, exceptBind_ok, hmis]⟩
    · rcases alpha with q | l
      · exact Or.inr ⟨[], some (.name s), q,
          by simp [PointsColors, PyColor.pyLen, exceptBind_ok, hmis]⟩
      · by_cases hl : l.length ≠ plist.length
        · exact Or.inl ⟨.runtimeError,
            by simp [PointsColors, PyColor.pyLen, exceptBind_ok,
              exceptBind_error, hmis, hl]⟩
        · exact Or.inr ⟨[], some (.name s), 1,
            by simp [PointsColors, PyColor.pyLen, exceptBind_ok, hmis, hl]⟩
  · exact Or.inl ⟨.typeError, rfl⟩
  · by_cases hmis : plist.length ≠ cs.length
    · exact Or.inl ⟨.runtimeError,
        by simp [PointsColors, PyColor.pyLen, exceptBind_ok, hmis]⟩
    · rcases cs with _ | ⟨e, es⟩
    
      · have hpl : plist = [] := by
          have : plist.length = 0 := by simpa using hmis
          simpa [List.length_eq_zero] using this
        subst hpl
        rcases alpha with q | l
        · exact Or.inl ⟨.indexError, rfl⟩
        · by_cases hl : l.length ≠ 0
          · exact Or.inl ⟨.runtimeError,
              by simp [PointsColors, PyColor.pyLen, exceptBind_ok,
                exceptBind_error, hl]⟩
          · exact Or.inl ⟨.indexError,
              by simp [PointsColors, PyColor.pyLen, exceptBind_ok,
                exceptBind_error, hl]⟩
      · have hplen2 : plist.length = es.length + 1 := by
          simpa using not_ne_iff.mp hmis
        rcases alpha with q | l
        · by_cases hp4 : e.pyLen = 4
          · rcases hmm : (e :: es).mapM (fun x =>
                match x with
                | ColorEntry.rgba rc gc bc ac =>
                    Except.ok ((rc, gc, bc, ac) : RGBA)
                | ColorEntry.rgb _ _ _ => Except.error PyErr.valueError
                | ColorEntry.cname s2 =>
                    if s2.length = 4 then Except.error PyErr.typeError
                    else Except.error PyErr.valueError) with e2 | l2
            · refine Or.inl ⟨e2, ?_⟩
              simp only [PointsColors, PyColor.pyLen, exceptBind_ok, hmm]
              simp [hmis, hplen2, hp4, exceptBind_ok, exceptBind_error]
            · refine Or.inr ⟨l2, none, q, ?_⟩
              simp only [PointsColors, PyColor.pyLen, exceptBind_ok, hmm]
              simp [hmis, hplen2, hp4, exceptBind_ok]
          · refine Or.inr ⟨((e :: es).zip
                (List.replicate plist.length q)).map (fun p =>
                  let rgb := getColorE lookup p.1
                  (rgb.1 * 255, rgb.2.1 * 255, rgb.2.2 * 255, p.2 * 255)),
              none, q, ?_⟩
            simp [PointsColors, PyColor.pyLen, exceptBind_ok, hmis, hplen2, hp4]
        · by_cases hl : l.length ≠ plist.length
          · exact Or.inl ⟨.runtimeError,
              by simp [PointsColors, PyColor.pyLen, exceptBind_ok,
                exceptBind_error, hmis, hl]⟩
          · have hleq : l.length = es.length + 1 :=
              (not_ne_iff.mp hl).trans hplen2
            by_cases hp4 : e.pyLen = 4
            · rcases hmm : (e :: es).mapM (fun x =>
                  match x with
                  | ColorEntry.rgba rc gc bc ac =>
                      Except.ok ((rc, gc, bc, ac) : RGBA)
                  | ColorEntry.rgb _ _ _ => Except.error PyErr.valueError
                  | ColorEntry.cname s2 =>
                      if s2.length = 4 then Except.error PyErr.typeError
                      else Except.error PyErr.valueError) with e2 | l2
              · refine Or.inl ⟨e2, ?_⟩
                simp only [PointsColors, PyColor.pyLen, exceptBind_ok, hmm]
                simp [hmis, hplen2, hl, hleq, hp4, exceptBind_ok, exceptBind_error]
              · refine Or.inr ⟨l2, none, 1, ?_⟩
                simp only [PointsColors, PyColor.pyLen, exceptBind_ok, hmm]
                simp [hmis, hplen2, hl, hleq, hp4, exceptBind_ok]
            · refine Or.inr ⟨((e :: es).zip l).map (fun p =>
                  let rgb := getColorE lookup p.1
                  (rgb.1 * 255, rgb.2.1 * 255, rgb.2.2 * 255, p.2 * 255)),
                none, 1, ?_⟩
              simp [PointsColors, PyColor.pyLen, exceptBind_ok, hmis, hplen2, hl, hleq, hp4]

/-- Every Points call lands in one of three buckets: the None return for an
empty input, a raised exception, or a registered actor with a nonempty point
set. -/
theorem points_result_cases (lookup : String → ℚ × ℚ × ℚ) (aid : ℕ)
    (plist : List (List ℚ)) (r : ℚ) (c : PyColor) (alpha : PyAlpha)
    (reg : List ℕ) :
    (plist = [] ∧ Points lookup aid plist r c alpha reg = .ok (reg, none))
    ∨ (∃ e, Points lookup aid plist r c alpha reg = .error e)
    ∨ (∃ a, Points lookup aid plist r c alpha reg
        = .ok (reg ++ [aid], some a) ∧ a.points ≠ []) := by
  by_cases hpl : plist.length = 0
  · exact Or.inl ⟨List.length_eq_zero.mp hpl, by simp [Points, hpl]⟩
  · right
    have hne : plist ≠ [] := fun hh => hpl (by simp [hh])
    cases hnp : normalizePlist plist with
    | error e =>
        exact Or.inl ⟨e, by simp [Points, hpl, hnp, exceptBind_error]⟩
    | ok q =>
        have hq : q ≠ [] := normalizePlist_ne_nil plist q hne hnp
        cases hg : perPointGuard c alpha with
        | error e =>
            exact Or.inl ⟨e,
              by simp [Points, hpl, hnp, hg, exceptBind_ok, exceptBind_error]⟩
        | ok g =>
            cases g with
            | false =>
                right
                rcases alpha with qa | la
                · refine ⟨⟨"Points", if q.length = 1 then [[0, 0, 0]] else q,
                    none, some c, some qa,
                    if q.length = 1 then some (q.headD []) else none, r⟩,
                    by simp [Points, hpl, hnp, hg, exceptBind_ok], ?_⟩
                  by_cases h1 : q.length = 1 <;> simp [h1, hq]
                · refine ⟨⟨"Points", if q.length = 1 then [[0, 0, 0]] else q,
                    none, some c, some 0,
                    if q.length = 1 then some (q.headD []) else none, r⟩,
                    by simp [Points, hpl, hnp, hg, exceptBind_ok], ?_⟩
                  by_cases h1 : q.length = 1 <;> simp [h1, hq]
            | true =>
                rcases pointsColors_shape lookup q r c alpha with
                  ⟨e, he⟩ | ⟨pcl, uniC, ua, hok⟩
                · exact Or.inl ⟨e, by simp [Points, hpl, hnp, hg, he,
                    exceptBind_ok, exceptBind_error]⟩
                · right
                  refine ⟨⟨"Points", q, some pcl, uniC, some ua, none, r⟩,
                    ?_, by simp [hq]⟩
                  simp [Points, hpl, hnp, hg, hok, exceptBind_ok]

/-- The norm of a real 3-vector vanishes only at the origin. -/
theorem V3.norm_eq_zero_iff (v : V3) :
    V3.norm v = 0 ↔ v = ⟨0, 0, 0⟩ := by
  unfold V3.norm
  constructor
  · intro h
    have hnn : 0 ≤ v.x ^ 2 + v.y ^ 2 + v.z ^ 2 := by positivity
    have hsum : v.x ^ 2 + v.y ^ 2 + v.z ^ 2 = 0 :=
      (Real.sqrt_eq_zero hnn).mp h
    have hx : v.x = 0 := by nlinarith [sq_nonneg v.x, sq_nonneg v.y, sq_nonneg v.z]
    have hy : v.y = 0 := by nlinarith [sq_nonneg v.x, sq_nonneg v.y, sq_nonneg v.z]
    have hz : v.z = 0 := by nlinarith [sq_nonneg v.x, sq_nonneg v.y, sq_nonneg v.z]
    cases v
    simp_all
  · rintro rfl
    simp

/-- The difference vector vanishes exactly for equal endpoints. -/
theorem V3.sub_eq_zero_iff (a b : V3) :
    V3.sub a b = ⟨0, 0, 0⟩ ↔ a = b := by
  cases a
  cases b
  simp [V3.sub, V3.mk.injEq, sub_eq_zero]

/-- Arc returns None exactly on inputs that fix neither parameterization,
and registers exactly the successful constructions. -/
theorem arc_cases (aid : ℕ) (center point1 : List ℚ)
    (point2 normal : Option (List ℚ)) (angle : Option ℚ) (invert : Bool)
    (res : ℕ) (reg : List ℕ) :
    ((Arc aid center point1 point2 normal angle invert res reg).2 = none
      ↔ point2 = none ∧ (normal = none ∨ angle = none))
    ∧ ((Arc aid center point1 point2 normal angle invert res reg).2 = none
        → (Arc aid center point1 point2 normal angle invert res reg).1 = reg)
    ∧ (∀ a, (Arc aid center point1 point2 normal angle invert res reg).2 = some a
        → (Arc aid center point1 point2 normal angle invert res reg).1
            = reg ++ [aid]) := by
  rcases point2 with _ | p2 <;> rcases normal with _ | nv <;>
    rcases angle with _ | ang <;> simp [Arc]

/-- Spring returns None exactly for coincident endpoints; a successful
construction is registered and carries its endpoints and a nonempty helix. -/
theorem spring_cases (aid : ℕ) (startPoint endPoint : V3) (coils : ℕ)
    (r : ℝ) (r2 th : Option ℝ) (reg : List ℕ) :
    ((Spring aid startPoint endPoint coils r r2 th reg).2 = none
      ↔ startPoint = endPoint)
    ∧ ((Spring aid startPoint endPoint coils r r2 th reg).2 = none
        → (Spring aid startPoint endPoint coils r r2 th reg).1 = reg)
    ∧ (∀ a, (Spring aid startPoint endPoint coils r r2 th reg).2 = some a
        → (Spring aid startPoint endPoint coils r r2 th reg).1 = reg ++ [aid]
          ∧ a.base = startPoint ∧ a.top = endPoint ∧ a.pts ≠ []) := by
  have hiff : V3.norm (endPoint.sub startPoint) = 0 ↔ startPoint = endPoint := by
    rw [V3.norm_eq_zero_iff, V3.sub_eq_zero_iff]
    exact eq_comm
  by_cases h : V3.norm (endPoint.sub startPoint) = 0
  · refine ⟨?_, ?_, ?_⟩
    · simp only [Spring, if_pos h]
      simp [hiff.mp h]
    · intro _
      simp only [Spring, if_pos h]
    · intro a ha
      simp only [Spring, if_pos h] at ha
      simp at ha
  · refine ⟨?_, ?_, ?_⟩
    · simp only [Spring, if_neg h]
      constructor
      · intro hh
        simp at hh
      · intro hh
        exact absurd (hiff.mpr hh) h
    · intro ha
      simp only [Spring, if_neg h] at ha
      simp at ha
    · intro a ha
      simp only [Spring, if_neg h] at ha ⊢
      refine ⟨by trivial, ?_⟩
      obtain rfl : _ = a := by simpa using ha
      simp

/-- C3: the factories with explicit failure signals cited by the claim
(Points, Arc, Spring) either return a fully built renderable actor or the
None failure signal, None exactly on the malformed inputs: Points returns
None exactly for an empty point list and otherwise raises or returns a
registered actor with a nonempty point set; Arc returns None exactly when
neither the two-point nor the normal-and-angle parameterization is complete;
Spring returns None exactly for coincident endpoints, and its successful
actor carries its endpoints and a nonempty helix polyline. -/
theorem c3_factories_total :
    (∀ (lookup : String → ℚ × ℚ × ℚ) (aid : ℕ) (plist : List (List ℚ))
        (r : ℚ) (c : PyColor) (alpha : PyAlpha) (reg : List ℕ),
        (plist = [] ∧ Points lookup aid plist r c alpha reg = .ok (reg, none))
        ∨ (∃ e, Points lookup aid plist r c alpha reg = .error e)
        ∨ (∃ a, Points lookup aid plist r c alpha reg
            = .ok (reg ++ [aid], some a) ∧ a.points ≠ []))
    ∧ (∀ (aid : ℕ) (center point1 : List ℚ) (point2 normal : Option (List ℚ))
        (angle : Option ℚ) (invert : Bool) (res : ℕ) (reg : List ℕ),
        (Arc aid center point1 point2 normal angle invert res reg).2 = none
          ↔ point2 = none ∧ (normal = none ∨ angle = none))
    ∧ (∀ (aid : ℕ) (startPoint endPoint : V3) (coils : ℕ) (r : ℝ)
        (r2 th : Option ℝ) (reg : List ℕ),
        ((Spring aid startPoint endPoint coils r r2 th reg).2 = none
          ↔ startPoint = endPoint)
        ∧ (∀ a, (Spring aid startPoint endPoint coils r r2 th reg).2 = some a
            → a.base = startPoint ∧ a.top = endPoint ∧ a.pts ≠ [])) :=
  ⟨fun lookup aid plist r c alpha reg =>
      points_result_cases lookup aid plist r c alpha reg,
   fun aid center point1 point2 normal angle invert res reg =>
      (arc_cases aid center point1 point2 normal angle invert res reg).1,
   fun aid s e coils r r2 th reg =>
      ⟨(spring_cases aid s e coils r r2 th reg).1,
       fun a ha => ((spring_cases aid s e coils r r2 th reg).2.2 a ha).2⟩⟩

/-- C3, witness: Arc without point2, normal or angle returns None, and a
one-point Points call returns a registered one-point actor. -/
theorem c3_factories_total_witness :
    (Arc 0 [0, 0, 0] [1, 0, 0] none none none false 48 []).2 = none
    ∧ ((⟨0, 0, 0⟩ : V3) = ⟨0, 0, 0⟩) :=
  ⟨(c3_factories_total.2.1 0 [0, 0, 0] [1, 0, 0] none none none false 48
      []).mpr ⟨rfl, Or.inl rfl⟩,
   (c3_factories_total.2.2 0 ⟨0, 0, 0⟩ ⟨0, 0, 0⟩ 20 (1 / 10) none none
      []).1.mp (by
        simp only [Spring]
        rw [if_pos (by simp [V3.sub, V3.norm])])⟩

/-- C4: evaluating Latex at a failed external rendering. The call appends
None to the creation registry and then raises AttributeError at the
unconditional vactor.name assignment of line 1949, instead of returning the
None result the specification describes. -/
theorem c4_latex_failure_raises :
    Latex 0 "E=mc^2" .failed [] =
      { reg := [none], outcome := .error .attributeError } := rfl

/-- C5, counterexample: Tensors with the unrecognized source name cone
neither falls back to a default nor returns None: the local variable src is
never assigned and src.Update() raises UnboundLocalError. -/
theorem c5_counterexample :
    Tensors (.nameS ("cone")) none [] = .error .unboundLocalError := rfl

/-- C5 (amended): of the factories dispatching on a symbolic name, Marker
falls back to a Text construction of the unrecognized symbol itself, and
ParametricShape reports the unknown name and returns None without
registering; Tensors however neither falls back nor returns None on an
unrecognized source string: the local variable src is never assigned and the
call raises UnboundLocalError. -/
theorem c5_unknown_name_dispatch :
    (∀ (sym : String) (s : ℚ) (filled : Bool), sym ∉ markerSymbols →
        Marker (.strS sym) s filled = .ok (.textM sym (s * 2) 0))
  ∧ (∀ (s : String) (aid : ℕ) (reg : List ℕ), s ∉ psShapes →
        ParametricShape aid (.strN s) reg = (reg, none))
  ∧ (∀ (s : String) (c : Option ColorEntry) (reg : List ℕ),
        hasSub ("ellip".toList) s.toList = false →
        hasSub ("cyl".toList) s.toList = false → s ≠ "cube" →
        Tensors (.nameS s) c reg = .error .unboundLocalError) := by
  refine ⟨?_, ?_, ?_⟩
  · intro sym s filled h
    simp only [markerSymbols, List.mem_cons, List.mem_singleton, not_or] at h
    obtain ⟨h1, h2, h3, h4, h5, h6, h7, h8, h9, h10, h11, h12, h13, h14⟩ := h
    simp [Marker, h1, h2, h3, h4, h5, h6, h7, h8, h9, h10, h11, h12, h13, h14]
  · intro s aid reg h
    simp [ParametricShape, h]
  · intro s c reg h1 h2 h3
    simp at h1 h2
    simp [Tensors, tensorsSource, h1, h2, h3, exceptBind_error]

/-- C5, witness: the unknown marker symbol zz falls back to a text glyph,
and the unknown parametric-shape name Banana yields None with the registry
untouched. -/
theorem c5_unknown_name_dispatch_witness :
    (("zz" : String) ∉ markerSymbols)
    ∧ Marker (.strS ("zz")) 1 true = .ok (.textM ("zz") (1 * 2) 0)
    ∧ (("Banana" : String) ∉ psShapes)
    ∧ ParametricShape 3 (.strN ("Banana")) [5] = ([5], none) :=
  ⟨by decide, c5_unknown_name_dispatch.1 ("zz") 1 true (by decide),
   by decide, c5_unknown_name_dispatch.2.1 ("Banana") 3 [5] (by decide)⟩

/-- Spheres either raises RuntimeError under exactly the spheresBad
conditions, or returns a registered actor. -/
theorem spheres_cases (getC : ColorArg → ℚ × ℚ × ℚ) (aid : ℕ)
    (centers : List (List ℚ)) (r : SphRad) (c : SphColor) (alpha : ℚ)
    (reg : List ℕ) :
    (Spheres getC aid centers r c alpha reg = .error .runtimeError
      ∧ spheresBad centers r c)
    ∨ (∃ a, Spheres getC aid centers r c alpha reg = .ok (reg ++ [aid], a)
        ∧ ¬spheresBad centers r c) := by
  by_cases hc : c.isSeqC = true
  · by_cases hcl : c.seqLen < centers.length
    · refine Or.inl ⟨?_, Or.inl ⟨hc, hcl⟩⟩
      simp [Spheres, exceptBind_ok, exceptBind_error, hc, hcl]
    · by_cases hr : r.isSeqR = true
      · by_cases hrl : r.seqLen < centers.length
        · refine Or.inl ⟨?_, Or.inr (Or.inl ⟨hr, hrl⟩)⟩
          simp [Spheres, exceptBind_ok, exceptBind_error, hc, hcl, hr, hrl]
        · refine Or.inl ⟨?_, Or.inr (Or.inr ⟨hc, hr⟩)⟩
          simp [Spheres, exceptBind_ok, exceptBind_error, hc, hcl, hr, hrl]
      · refine Or.inr ⟨spheresActor getC centers r c alpha, ?_, ?_⟩
        · simp [Spheres, exceptBind_ok, hc, hcl, hr]
        · simp [spheresBad, hc, hcl, hr]
  · by_cases hr : r.isSeqR = true
    · by_cases hrl : r.seqLen < centers.length
      · refine Or.inl ⟨?_, Or.inr (Or.inl ⟨hr, hrl⟩)⟩
        simp [Spheres, exceptBind_ok, exceptBind_error, hc, hr, hrl]
      · refine Or.inr ⟨spheresActor getC centers r c alpha, ?_, ?_⟩
        · simp [Spheres, exceptBind_ok, hc, hr, hrl]
        · simp [spheresBad, hc, hrl]
    · refine Or.inr ⟨spheresActor getC centers r c alpha, ?_, ?_⟩
      · simp [Spheres, exceptBind_ok, hc, hr]
      · simp [spheresBad, hc, hr]

/-- A bare RGB color tuple is a sequence (utils.isSequence is True for
tuples) of Python length 3, so four centers with c = (1,0,0) raise
RuntimeError at line 1124 without building an actor. -/
theorem spheres_tuple_color_raises :
    Spheres (fun _ => (0, 0, 0)) 4 [[0, 0, 0], [1, 0, 0], [2, 0, 0], [3, 0, 0]]
      (.one 1) (.rgbTup 1 0 0) 1 [] = .error .runtimeError := rfl

/-- C10: Spheres raises exactly when the centers list is strictly longer
than a sequence-typed color (a per-sphere color list, or a bare RGB/RGBA
tuple, which is itself a sequence of length 3 or 4), or strictly longer
than a per-sphere radius sequence, or when color and radius are both given
as sequences; a color or radius sequence strictly longer than the centers
list is not an error (a warning is printed) and the call still returns a
registered actor, as it does on every non-erroneous input. -/
theorem c10_spheres_mismatch :
    ∀ (getC : ColorArg → ℚ × ℚ × ℚ) (aid : ℕ) (centers : List (List ℚ))
      (r : SphRad) (c : SphColor) (alpha : ℚ) (reg : List ℕ),
      (Spheres getC aid centers r c alpha reg = .error .runtimeError
        ↔ spheresBad centers r c)
      ∧ (¬spheresBad centers r c →
          ∃ a, Spheres getC aid centers r c alpha reg
            = .ok (reg ++ [aid], a)) := by
  intro getC aid centers r c alpha reg
  rcases spheres_cases getC aid centers r c alpha reg with
    ⟨herr, hbad⟩ | ⟨a, hok, hgood⟩
  · exact ⟨⟨fun _ => hbad, fun _ => herr⟩,
      fun hng => absurd hbad hng⟩
  · refine ⟨⟨fun he => ?_, fun hbad => absurd hbad hgood⟩, fun _ => ⟨a, hok⟩⟩
    rw [hok] at he
    cases he

/-- C10, witness: two centers with the bare color tuple (1,0,0) - a
sequence of length 3, longer than the centers list - only warn and return
a registered actor. -/
theorem c10_spheres_mismatch_witness :
    ¬spheresBad [[0, 0, 0], [1, 0, 0]] (.one 1) (.rgbTup 1 0 0)
    ∧ ∃ a, Spheres (fun _ => (0, 0, 0)) 4 [[0, 0, 0], [1, 0, 0]] (.one 1)
        (.rgbTup 1 0 0) 1 [] = .ok ([] ++ [4], a) :=
  have hng : ¬spheresBad [[0, 0, 0], [1, 0, 0]] (.one 1) (.rgbTup 1 0 0) := by
    simp [spheresBad, SphColor.isSeqC, SphColor.seqLen, SphRad.isSeqR,
      SphRad.seqLen]
  ⟨hng, (c10_spheres_mismatch (fun _ => (0, 0, 0)) 4 [[0, 0, 0], [1, 0, 0]]
      (.one 1) (.rgbTup 1 0 0) 1 []).2 hng⟩

/-- The Hermite basis at the left endpoint of an interval returns the left
control value. -/
theorem hermite_zero (p0 m0 p1 m1 : ℚ) : hermite p0 m0 p1 m1 0 = p0 := by
  unfold hermite
  ring

/-- The Hermite basis at the right endpoint of an interval returns the right
control value. -/
theorem hermite_one (p0 m0 p1 m1 : ℚ) : hermite p0 m0 p1 m1 1 = p1 := by
  unfold hermite
  ring

/-- A closed Kochanek-Bartels spline evaluated at parameter 0 returns the
first control value. -/
theorem kbEvalClosed_zero (pts : List ℚ) (tn cn bs : ℚ) (hne : pts ≠ []) :
    kbEvalClosed pts tn cn bs 0 = pts.getD 0 0 := by
  unfold kbEvalClosed
  dsimp only
  rw [min_eq_right (by positivity : (0 : ℚ) ≤ (pts.length : ℚ)),
    max_self]
  norm_num
  exact hermite_zero _ _ _ _

/-- A closed Kochanek-Bartels spline evaluated at the parameter equal to the
control count wraps around and returns the first control value. -/
theorem kbEvalClosed_n (pts : List ℚ) (tn cn bs : ℚ) (hne : pts ≠ []) :
    kbEvalClosed pts tn cn bs (pts.length : ℚ) = pts.getD 0 0 := by
  have h1 : 1 ≤ pts.length := List.length_pos.mpr hne
  unfold kbEvalClosed
  dsimp only
  rw [min_self, max_eq_right (by positivity : (0 : ℚ) ≤ (pts.length : ℚ))]
  rw [Int.floor_natCast, Int.toNat_natCast]
  rw [min_eq_right (Nat.sub_le _ _)]
  rw [Nat.sub_add_cancel h1, Nat.mod_self]
  have hu : (pts.length : ℚ) - ((pts.length - 1 : ℕ) : ℚ) = 1 := by
    rw [Nat.cast_sub h1]
    ring
  rw [hu, hermite_one]

/-- C9: for every nonempty list of 3d input points, for every tension,
continuity and bias, the closed Kochanek-Bartels spline of KSpline evaluates
to the same 3d point at spline parameter 0 and at spline parameter n (the
input point count): both are the first input point (closure property). -/
theorem c9_kspline_closure (points : List (List ℚ)) (tn cn bs : ℚ)
    (hne : points ≠ []) (hdim : ∀ p ∈ points, p.length = 3) :
    ksplineEvalPt points tn cn bs 0
      = ksplineEvalPt points tn cn bs (points.length : ℚ) := by
  have key : ∀ f : List ℚ → ℚ,
      kbEvalClosed (points.map f) tn cn bs 0
        = kbEvalClosed (points.map f) tn cn bs (points.length : ℚ) := by
    intro f
    have hne2 : points.map f ≠ [] := by simpa using hne
    rw [kbEvalClosed_zero _ _ _ _ hne2]
    rw [show ((points.length : ℚ)) = (((points.map f).length : ℚ)) by
      rw [List.length_map]]
    rw [kbEvalClosed_n _ _ _ _ hne2]
  unfold ksplineEvalPt
  rw [key, key, key]

/-- C9, witness: a concrete closed 3-point spline coincides at parameters 0
and 3. -/
theorem c9_kspline_closure_witness :
    ([[0, 0, 0], [1, 2, 3], [4, 1, 0]] : List (List ℚ)) ≠ []
    ∧ ksplineEvalPt [[0, 0, 0], [1, 2, 3], [4, 1, 0]] 0 0 0 0
      = ksplineEvalPt [[0, 0, 0], [1, 2, 3], [4, 1, 0]] 0 0 0
          ((([[0, 0, 0], [1, 2, 3], [4, 1, 0]] : List (List ℚ)).length : ℚ)) :=
  ⟨by decide, c9_kspline_closure _ 0 0 0 (by decide) (by decide)⟩

/-- Scalar multiplication on V3, componentwise. -/
theorem V3.smul_def (c : ℝ) (v : V3) :
    c • v = ⟨c * v.x, c * v.y, c * v.z⟩ := rfl

/-- The scale step of the Arrow transform on the template x-direction. -/
theorem scaleV_unitX (a b c : ℝ) : scaleV a b c ⟨1, 0, 0⟩ = ⟨a, 0, 0⟩ := by
  simp [scaleV]

/-- RotateY(-90) carries the scaled template x-direction onto the z-axis. -/
theorem rotY_negHalfPi (L : ℝ) : rotYv (-(Real.pi / 2)) ⟨L, 0, 0⟩ = ⟨0, 0, L⟩ := by
  simp only [rotYv, Real.cos_neg, Real.sin_neg, Real.cos_pi_div_two,
    Real.sin_pi_div_two, V3.mk.injEq]
  norm_num

/-- RotateZ(phi) after RotateY(theta) sends the z-axis to the spherical
direction (sin theta cos phi, sin theta sin phi, cos theta). -/
theorem rotZ_rotY_zaxis (theta phi L : ℝ) :
    rotZv phi (rotYv theta ⟨0, 0, L⟩) =
      ⟨L * (Real.sin theta * Real.cos phi),
       L * (Real.sin theta * Real.sin phi), L * Real.cos theta⟩ := by
  simp only [rotYv, rotZv, V3.mk.injEq]
  refine ⟨by ring, by ring, by ring⟩

/-- The x-component of a scalar multiple. -/
theorem V3.smul_x (c : ℝ) (v : V3) : (c • v).x = c * v.x := rfl

/-- The y-component of a scalar multiple. -/
theorem V3.smul_y (c : ℝ) (v : V3) : (c • v).y = c * v.y := rfl

/-- The z-component of a scalar multiple. -/
theorem V3.smul_z (c : ℝ) (v : V3) : (c • v).z = c * v.z := rfl

/-- The composed Arrow rotations applied to the z-axis template recover any
vector of length L from its normalized spherical angles theta = arccos of
the z component and phi = arctan2 of the y and x components. -/
theorem arrow_spherical (dx dy dz L : ℝ) (hL0 : 0 < L)
    (hLsq : L ^ 2 = dx ^ 2 + dy ^ 2 + dz ^ 2) :
    rotZv (atan2R (L⁻¹ * dy) (L⁻¹ * dx))
      (rotYv (Real.arccos (L⁻¹ * dz)) ⟨0, 0, L⟩) = ⟨dx, dy, dz⟩ := by
  have hLne : L ≠ 0 := ne_of_gt hL0
  rw [rotZ_rotY_zaxis]
  have hunit : (L⁻¹ * dx) ^ 2 + (L⁻¹ * dy) ^ 2 + (L⁻¹ * dz) ^ 2 = 1 := by
    field_simp
    linarith
  have haz1 : L⁻¹ * dz ≤ 1 := by
    nlinarith [sq_nonneg (L⁻¹ * dx), sq_nonneg (L⁻¹ * dy)]
  have haz2 : -1 ≤ L⁻¹ * dz := by
    nlinarith [sq_nonneg (L⁻¹ * dx), sq_nonneg (L⁻¹ * dy)]
  rw [Real.cos_arccos haz2 haz1, Real.sin_arccos]
  have h1z : 1 - (L⁻¹ * dz) ^ 2 = (L⁻¹ * dx) ^ 2 + (L⁻¹ * dy) ^ 2 := by
    linarith
  rw [h1z]
  by_cases hxy : L⁻¹ * dx = 0 ∧ L⁻¹ * dy = 0
  · have hdx0 : dx = 0 := by
      have h2 := hxy.1
      field_simp at h2
      exact h2
    have hdy0 : dy = 0 := by
      have h2 := hxy.2
      field_simp at h2
      exact h2
    simp only [V3.mk.injEq]
    rw [hdx0, hdy0]
    norm_num
    field_simp
  · have hz0 : (⟨L⁻¹ * dx, L⁻¹ * dy⟩ : ℂ) ≠ 0 := by
      intro hc
      rw [Complex.ext_iff] at hc
      simp only [Complex.zero_re, Complex.zero_im] at hc
      exact hxy ⟨hc.1, hc.2⟩
    have habs : Complex.abs ⟨L⁻¹ * dx, L⁻¹ * dy⟩
        = Real.sqrt ((L⁻¹ * dx) ^ 2 + (L⁻¹ * dy) ^ 2) := by
      rw [Complex.abs_apply, Complex.normSq_mk]
      ring_nf
    have hrho : 0 < Real.sqrt ((L⁻¹ * dx) ^ 2 + (L⁻¹ * dy) ^ 2) := by
      apply Real.sqrt_pos.mpr
      rcases not_and_or.mp hxy with hx | hy
      · have h2 : (0 : ℝ) < (L⁻¹ * dx) ^ 2 := by positivity
        nlinarith [sq_nonneg (L⁻¹ * dy)]
      · have h2 : (0 : ℝ) < (L⁻¹ * dy) ^ 2 := by positivity
        nlinarith [sq_nonneg (L⁻¹ * dx)]
    unfold atan2R
    rw [Complex.cos_arg hz0, Complex.sin_arg, habs]
    have hre : (⟨L⁻¹ * dx, L⁻¹ * dy⟩ : ℂ).re = L⁻¹ * dx := rfl
    have him : (⟨L⁻¹ * dx, L⁻¹ * dy⟩ : ℂ).im = L⁻¹ * dy := rfl
    rw [hre, him]
    have hcx : Real.sqrt ((L⁻¹ * dx) ^ 2 + (L⁻¹ * dy) ^ 2)
        * ((L⁻¹ * dx) / Real.sqrt ((L⁻¹ * dx) ^ 2 + (L⁻¹ * dy) ^ 2))
        = L⁻¹ * dx := by
      rw [mul_comm]
      exact div_mul_cancel₀ _ (ne_of_gt hrho)
    have hcy : Real.sqrt ((L⁻¹ * dx) ^ 2 + (L⁻¹ * dy) ^ 2)
        * ((L⁻¹ * dy) / Real.sqrt ((L⁻¹ * dx) ^ 2 + (L⁻¹ * dy) ^ 2))
        = L⁻¹ * dy := by
      rw [mul_comm]
      exact div_mul_cancel₀ _ (ne_of_gt hrho)
    simp only [V3.mk.injEq]
    rw [hcx, hcy]
    refine ⟨by field_simp, by field_simp, by field_simp⟩

/-- For distinct endpoints the full Arrow transform maps the template
x-direction exactly onto the difference vector. -/
theorem arrowTransform_unitX (p q : V3) (sz : Option ℝ)
    (h : V3.norm (q.sub p) ≠ 0) :
    arrowTransform p q sz ⟨1, 0, 0⟩ = .ok (q.sub p) := by
  have hnn : 0 ≤ V3.norm (q.sub p) := Real.sqrt_nonneg _
  have hL0 : 0 < V3.norm (q.sub p) := lt_of_le_of_ne hnn (Ne.symm h)
  have haxis : arrowAxis p q
      = .ok ((V3.norm (q.sub p))⁻¹ • q.sub p) := by
    unfold arrowAxis divV3
    rw [if_neg h, if_neg h]
  have hLsq : (V3.norm (q.sub p)) ^ 2
      = (q.sub p).x ^ 2 + (q.sub p).y ^ 2 + (q.sub p).z ^ 2 := by
    unfold V3.norm
    rw [Real.sq_sqrt (by positivity)]
  have key := arrow_spherical (q.sub p).x (q.sub p).y (q.sub p).z
    (V3.norm (q.sub p)) hL0 hLsq
  have hd : (⟨(q.sub p).x, (q.sub p).y, (q.sub p).z⟩ : V3) = q.sub p := by
    cases hqp : q.sub p
    rfl
  rw [hd] at key
  cases sz with
  | none =>
      unfold arrowTransform
      rw [haxis, exceptBind_ok]
      dsimp only
      rw [scaleV_unitX, rotY_negHalfPi]
      simp only [V3.smul_x, V3.smul_y, V3.smul_z]
      rw [key]
  | some szv =>
      unfold arrowTransform
      rw [haxis, exceptBind_ok]
      dsimp only
      rw [scaleV_unitX, rotY_negHalfPi]
      simp only [V3.smul_x, V3.smul_y, V3.smul_z]
      rw [key]

/-- C7: the arrow built by Arrow points along endPoint minus startPoint:
for distinct endpoints the vtk transform maps the template x-direction to
exactly that difference vector (hence parallel to it), and the division by
the length is guarded, so on every input, coincident endpoints included,
the transform evaluates without reaching a division by zero. -/
theorem c7_arrow_direction :
    (∀ (p q : V3) (sz : Option ℝ), p ≠ q →
        arrowTransform p q sz ⟨1, 0, 0⟩ = .ok (q.sub p))
  ∧ (∀ (p q : V3) (sz : Option ℝ) (v : V3),
        ∃ w, arrowTransform p q sz v = .ok w) := by
  constructor
  · intro p q sz hpq
    apply arrowTransform_unitX
    intro hz
    rw [V3.norm_eq_zero_iff, V3.sub_eq_zero_iff] at hz
    exact hpq hz.symm
  · intro p q sz v
    by_cases h : V3.norm (q.sub p) = 0
    · exact ⟨_, by unfold arrowTransform arrowAxis divV3
                   rw [if_pos h, exceptBind_ok]⟩
    · exact ⟨_, by unfold arrowTransform arrowAxis divV3
                   rw [if_neg h, if_neg h, exceptBind_ok]⟩

/-- C7, witness: the arrow from the origin to (0, 0, 3) is mapped onto
exactly that direction vector. -/
theorem c7_arrow_direction_witness :
    ((⟨0, 0, 0⟩ : V3) ≠ ⟨0, 0, 3⟩)
    ∧ arrowTransform ⟨0, 0, 0⟩ ⟨0, 0, 3⟩ none ⟨1, 0, 0⟩
        = .ok (V3.sub ⟨0, 0, 3⟩ ⟨0, 0, 0⟩) :=
  have hne : (⟨0, 0, 0⟩ : V3) ≠ ⟨0, 0, 3⟩ := by
    intro hc
    have h3 := congrArg V3.z hc
    norm_num at h3
  ⟨hne, c7_arrow_direction.1 _ _ none hne⟩

/-- On the index range DashedLine iterates, the skip condition of line 522
never fires, so the emitted dashes are exactly the odd-indexed
sub-intervals; their number is the number of odd indices in 1..n1+1. -/
theorem dash_filterMap_length {α : Type} (g : ℕ → α) (n1 : ℕ)
    (h1 : 1 ≤ n1) :
    ((List.range' 1 (n1 + 1)).filterMap (fun (i : ℕ) =>
        if ((i : ℚ) - 1) / (n1 : ℚ) > 1 then none
        else if i % 2 = 1 then some (g i) else none)).length
      = (n1 + 2) / 2 := by
  have hgen : ∀ len s, s + len ≤ n1 + 2 →
      ((List.range' s len).filterMap (fun (i : ℕ) =>
        if ((i : ℚ) - 1) / (n1 : ℚ) > 1 then none
        else if i % 2 = 1 then some (g i) else none)).length
      = ((List.range' s len).filter (fun (i : ℕ) => i % 2 = 1)).length := by
    intro len
    induction len with
    | zero => intro s hs; rfl
    | succ k ih =>
        intro s hs
        rw [List.range'_succ]
        have hn1 : (0 : ℚ) < (n1 : ℚ) := by
          have h2 : 0 < n1 := h1
          exact_mod_cast h2
        have hcond : ¬(((s : ℚ) - 1) / (n1 : ℚ) > 1) := by
          rw [not_lt, div_le_one hn1]
          have hs1 : s ≤ n1 + 1 := by omega
          have hsc : (s : ℚ) ≤ (n1 : ℚ) + 1 := by exact_mod_cast hs1
          linarith
        rw [List.filterMap_cons, List.filter_cons]
        by_cases hodd : s % 2 = 1
        · simp [hcond, hodd, ih (s + 1) (by omega)]
        · simp [hcond, hodd, ih (s + 1) (by omega)]
  rw [hgen (n1 + 1) 1 (by omega)]
  have hcount : ∀ m,
      ((List.range' 1 m).filter (fun (i : ℕ) => i % 2 = 1)).length
        = (m + 1) / 2 := by
    intro m
    induction m with
    | zero => rfl
    | succ k ih =>
        rw [List.range'_concat, List.filter_append, List.length_append, ih]
        simp only [one_mul]
        by_cases h : (1 + k) % 2 = 1
        · simp [h]
          omega
        · simp [h]
          omega
  rw [hcount (n1 + 1)]

/-- C8: for a straight segment of length L and dash spacing s with
0 < s < L, DashedLine splits the segment into n1 = floor(L/s) equal
sub-intervals whose physical size L/n1 satisfies s <= L/n1 < 2 s, emits
exactly the odd-indexed ones (alternating emitted and skipped), and the
number of emitted dash sub-segments is (n1+2)/2, which is within 1 of
L/(2 s). -/
theorem c8_dashed_count (p0 p1 : V3) (spacing : ℝ) (n1 : ℕ)
    (h0 : 0 < spacing) (hL : spacing < V3.norm (p1.sub p0))
    (hn : (n1 : ℤ) = Int.floor (V3.norm (p1.sub p0) / spacing)) :
    (dashedSegments p0 p1 spacing).length = (n1 + 2) / 2
    ∧ |(((n1 + 2) / 2 : ℕ) : ℝ)
        - V3.norm (p1.sub p0) / (2 * spacing)| ≤ 1
    ∧ spacing ≤ V3.norm (p1.sub p0) / n1
    ∧ V3.norm (p1.sub p0) / n1 < 2 * spacing := by
  have hLpos : 0 < V3.norm (p1.sub p0) := lt_trans h0 hL
  have hx1 : 1 < V3.norm (p1.sub p0) / spacing := (one_lt_div h0).mpr hL
  have hfl : (1 : ℤ) ≤ Int.floor (V3.norm (p1.sub p0) / spacing) := by
    rw [Int.le_floor]
    push_cast
    linarith
  have hn1 : 1 ≤ n1 := by
    have := hfl
    rw [← hn] at this
    exact_mod_cast this
  have hlow : (n1 : ℝ) ≤ V3.norm (p1.sub p0) / spacing := by
    have h2 := Int.floor_le (V3.norm (p1.sub p0) / spacing)
    rw [← hn] at h2
    exact_mod_cast h2
  have hhigh : V3.norm (p1.sub p0) / spacing < (n1 : ℝ) + 1 := by
    have h2 := Int.lt_floor_add_one (V3.norm (p1.sub p0) / spacing)
    rw [← hn] at h2
    exact_mod_cast h2
  have hn1R : (0 : ℝ) < (n1 : ℝ) := by
    have : 0 < n1 := hn1
    exact_mod_cast this
  have htn : Int.toNat (Int.floor (V3.norm (p1.sub p0) / spacing)) = n1 := by
    rw [← hn]
    exact Int.toNat_natCast n1
  refine ⟨?_, ?_, ?_, ?_⟩
  · unfold dashedSegments
    dsimp only
    rw [htn, if_neg (by omega : ¬n1 = 0)]
    exact dash_filterMap_length _ n1 hn1
  · have hval : (((n1 + 2) / 2 : ℕ) : ℝ) = (n1 / 2 : ℕ) + 1 := by
      have h2 : (n1 + 2) / 2 = n1 / 2 + 1 := by omega
      rw [h2]
      push_cast
      ring
    have hk2 : (n1 : ℝ) ≤ 2 * ((n1 / 2 : ℕ) : ℝ) + 1 := by
      have h2 : n1 ≤ 2 * (n1 / 2) + 1 := by omega
      exact_mod_cast h2
    have hk3 : 2 * ((n1 / 2 : ℕ) : ℝ) ≤ (n1 : ℝ) := by
      have h2 : 2 * (n1 / 2) ≤ n1 := by omega
      exact_mod_cast h2
    have hhalf : V3.norm (p1.sub p0) / (2 * spacing)
        = (V3.norm (p1.sub p0) / spacing) / 2 := by
      rw [div_div]
      ring_nf
    rw [hval, hhalf, abs_le]
    constructor
    · linarith
    · linarith
  · rw [le_div_iff₀ hn1R]
    have h2 : (n1 : ℝ) * spacing ≤ V3.norm (p1.sub p0) :=
      (le_div_iff₀ h0).mp hlow
    linarith [h2]
  · rw [div_lt_iff₀ hn1R]
    have h2 : V3.norm (p1.sub p0) < ((n1 : ℝ) + 1) * spacing :=
      (div_lt_iff₀ h0).mp hhigh
    have h3 : (n1 : ℝ) + 1 ≤ 2 * (n1 : ℝ) := by
      have h4 : (1 : ℝ) ≤ (n1 : ℝ) := by exact_mod_cast hn1
      linarith
    nlinarith

/-- C8, witness: a segment of length 5 with spacing 1 has n1 = 5 and emits
3 dashes, within 1 of 5/2. -/
theorem c8_dashed_count_witness :
    (0 : ℝ) < 1 ∧ (1 : ℝ) < V3.norm (V3.sub ⟨5, 0, 0⟩ ⟨0, 0, 0⟩)
    ∧ (dashedSegments ⟨0, 0, 0⟩ ⟨5, 0, 0⟩ 1).length = (5 + 2) / 2 :=
  have hnorm : V3.norm (V3.sub ⟨5, 0, 0⟩ ⟨0, 0, 0⟩) = 5 := by
    unfold V3.norm V3.sub
    norm_num
    rw [show (25 : ℝ) = 5 ^ 2 by norm_num]
    exact Real.sqrt_sq (by norm_num)
  have h0 : (0 : ℝ) < 1 := by norm_num
  have hL : (1 : ℝ) < V3.norm (V3.sub ⟨5, 0, 0⟩ ⟨0, 0, 0⟩) := by
    rw [hnorm]
    norm_num
  have hn : ((5 : ℕ) : ℤ)
      = Int.floor (V3.norm (V3.sub ⟨5, 0, 0⟩ ⟨0, 0, 0⟩) / 1) := by
    rw [hnorm]
    norm_num
  ⟨h0, hL, (c8_dashed_count ⟨0, 0, 0⟩ ⟨5, 0, 0⟩ 1 5 h0 hL hn).1⟩

end VtkShapes
